import Mathlib

/-!
# Verification of the loan present-value calculator

Shallow embedding of `src/loan_calculator.py` (class `LoanCalculator`).
Python floats are modelled as rationals (`ℚ`); Python ints as `ℤ`.
`ValueError` raised on validation failure is modelled as `Except String`,
carrying the exact message string the source raises.  Python's
`round(x, 2)` (round-half-to-even on floats) is modelled as rounding
`x * 100` to the nearest integer and dividing by 100; the spec (§4.2
step 4) accepts any standard tie-breaking rule, and none of the results
proved below sit on a tie.
-/

namespace LoanCalculator

/-- `MAX_INTEREST_RATE = 1.0` (100% per period). -/
def MAX_INTEREST_RATE : ℚ := 1

/-- `MAX_PAYMENT = 1_000_000_000` (1 billion). -/
def MAX_PAYMENT : ℚ := 1000000000

/-- `MAX_PERIODS = 600` (50 years of monthly payments). -/
def MAX_PERIODS : ℤ := 600

/-- `MIN_PERIODS = 1`. -/
def MIN_PERIODS : ℤ := 1

/-- Rounding to 2 decimal places, the model of Python `round(x, 2)`. -/
def round2 (x : ℚ) : ℚ := (round (x * 100) : ℚ) / 100

/-- `LoanCalculator._validate_payment`.  The `isinstance` check is
discharged by the type `ℚ` of the argument. -/
def validate_payment (payment : ℚ) : Except String Unit :=
  if payment ≤ 0 then .error "Payment must be positive"
  else if payment > MAX_PAYMENT then .error "Payment cannot exceed $1,000,000,000.00"
  else .ok ()

/-- `LoanCalculator._validate_interest_rate`. -/
def validate_interest_rate (rate : ℚ) : Except String Unit :=
  if rate < 0 then .error "Interest rate cannot be negative"
  else if rate > MAX_INTEREST_RATE then .error "Interest rate cannot exceed 100.0%"
  else .ok ()

/-- `LoanCalculator._validate_periods`.  The `isinstance(…, int)` check is
discharged by the type `ℤ` of the argument. -/
def validate_periods (periods : ℤ) : Except String Unit :=
  if periods < MIN_PERIODS then .error "Periods must be at least 1"
  else if periods > MAX_PERIODS then .error "Periods cannot exceed 600"
  else .ok ()

/-- `LoanCalculator._validate_periods_per_year`. -/
def validate_periods_per_year (periods_per_year : ℤ) : Except String Unit :=
  if periods_per_year ∉ ([1, 2, 4, 12, 52, 365] : List ℤ) then
    .error "Periods per year must be 1, 2, 4, 12, 52, or 365"
  else .ok ()

/-- `LoanCalculator.calculate_present_value`, embedded line by line: the
four validators run in order, short-circuiting on the first failure; the
zero-rate branch returns `payment * periods` unrounded; the general branch
computes `discount_factor = (2 - (1 + periodic_rate) ** -periods) /
periodic_rate` — the literal `2` is what the source writes at line 55,
even though its docstring states the annuity formula with `1` — and
returns the rounded product. -/
def calculate_present_value (payment annual_rate : ℚ)
    (periods periods_per_year : ℤ) : Except String ℚ :=
  match validate_payment payment with
  | .error e => .error e
  | .ok _ =>
  match validate_interest_rate annual_rate with
  | .error e => .error e
  | .ok _ =>
  match validate_periods periods with
  | .error e => .error e
  | .ok _ =>
  match validate_periods_per_year periods_per_year with
  | .error e => .error e
  | .ok _ =>
    let periodic_rate := annual_rate / (periods_per_year : ℚ)
    if periodic_rate = 0 then
      .ok (payment * (periods : ℚ))
    else
      let discount_factor := (2 - (1 + periodic_rate) ^ (-periods)) / periodic_rate
      let present_value := payment * discount_factor
      .ok (round2 present_value)

/-- The present-value formula as the spec (§4.2 step 3) and the source's
own docstring state it: `PV = PMT × (1 − (1 + r)^(−n)) / r`, rounded to 2
decimal places.  Declared for comparison with `calculate_present_value`,
whose literal expression uses `2 −` instead of `1 −`. -/
def present_value_spec (payment annual_rate : ℚ)
    (periods periods_per_year : ℤ) : ℚ :=
  let periodic_rate := annual_rate / (periods_per_year : ℚ)
  round2 (payment * ((1 - (1 + periodic_rate) ^ (-periods)) / periodic_rate))

/-- The payment constraint of the data model: `> 0, ≤ MaxPayment`. -/
def validPayment (p : ℚ) : Prop := 0 < p ∧ p ≤ MAX_PAYMENT

/-- The rate constraint of the data model: `≥ 0, ≤ MaxInterestRate`. -/
def validRate (r : ℚ) : Prop := 0 ≤ r ∧ r ≤ MAX_INTEREST_RATE

/-- The periods constraint of the data model: `≥ MinPeriods, ≤ MaxPeriods`. -/
def validPeriods (n : ℤ) : Prop := MIN_PERIODS ≤ n ∧ n ≤ MAX_PERIODS

/-- The frequency constraint of the data model: membership in the allowed set. -/
def validFrequency (f : ℤ) : Prop := f ∈ ([1, 2, 4, 12, 52, 365] : List ℤ)

instance (p : ℚ) : Decidable (validPayment p) := by unfold validPayment; infer_instance

instance (r : ℚ) : Decidable (validRate r) := by unfold validRate; infer_instance

instance (n : ℤ) : Decidable (validPeriods n) := by unfold validPeriods; infer_instance

instance (f : ℤ) : Decidable (validFrequency f) := by unfold validFrequency; infer_instance

end LoanCalculator

namespace LoanCalculator

theorem validate_payment_eq_ok {p : ℚ} (hp : validPayment p) :
    validate_payment p = .ok () := by
  obtain ⟨h1, h2⟩ := hp
  unfold validate_payment
  rw [if_neg (not_le.mpr h1), if_neg (not_lt.mpr h2)]

theorem validate_interest_rate_eq_ok {r : ℚ} (hr : validRate r) :
    validate_interest_rate r = .ok () := by
  obtain ⟨h1, h2⟩ := hr
  unfold validate_interest_rate
  rw [if_neg (not_lt.mpr h1), if_neg (not_lt.mpr h2)]

theorem validate_periods_eq_ok {n : ℤ} (hn : validPeriods n) :
    validate_periods n = .ok () := by
  obtain ⟨h1, h2⟩ := hn
  unfold validate_periods
  rw [if_neg (not_lt.mpr h1), if_neg (not_lt.mpr h2)]

theorem validate_periods_per_year_eq_ok {f : ℤ} (hf : validFrequency f) :
    validate_periods_per_year f = .ok () := by
  have hf' : f ∈ ([1, 2, 4, 12, 52, 365] : List ℤ) := hf
  unfold validate_periods_per_year
  rw [if_neg (not_not_intro hf')]

/-- On any validated input, `calculate_present_value` succeeds and returns
exactly what the source's two branches compute. -/
theorem calculate_present_value_eq_ok {p r : ℚ} {n f : ℤ}
    (hp : validPayment p) (hr : validRate r)
    (hn : validPeriods n) (hf : validFrequency f) :
    calculate_present_value p r n f =
      if r / (f : ℚ) = 0 then .ok (p * (n : ℚ))
      else .ok (round2 (p * ((2 - (1 + r / (f : ℚ)) ^ (-n)) / (r / (f : ℚ))))) := by
  unfold calculate_present_value
  rw [validate_payment_eq_ok hp, validate_interest_rate_eq_ok hr,
    validate_periods_eq_ok hn, validate_periods_per_year_eq_ok hf]

/-- Rounding to 2 decimals is idempotent. -/
theorem round2_idem (x : ℚ) : round2 (round2 x) = round2 x := by
  unfold round2
  rw [div_mul_cancel₀ _ (by norm_num : (100 : ℚ) ≠ 0), round_intCast]

/-- Rounding to 2 decimals preserves nonnegativity. -/
theorem round2_nonneg {x : ℚ} (hx : 0 ≤ x) : 0 ≤ round2 x := by
  unfold round2
  apply div_nonneg _ (by norm_num : (0 : ℚ) ≤ 100)
  have h : (0 : ℤ) ≤ round (x * 100) := by
    rw [round_eq]
    exact Int.le_floor.mpr (by push_cast; linarith)
  exact_mod_cast h

/-- Doubling before or after 2-decimal rounding differs by at most one cent. -/
theorem round2_two_mul (x : ℚ) : |round2 (2 * x) - 2 * round2 x| ≤ 1 / 100 := by
  unfold round2
  have h1 : |((round (2 * x * 100) : ℚ)) - 2 * x * 100| ≤ 1 / 2 := by
    rw [abs_sub_comm]; exact abs_sub_round _
  have h2 : |(x * 100 : ℚ) - (round (x * 100) : ℚ)| ≤ 1 / 2 := abs_sub_round _
  have h3 : |((round (2 * x * 100) : ℚ)) - 2 * (round (x * 100) : ℚ)| ≤ 3 / 2 := by
    have step : |((round (2 * x * 100) : ℚ)) - 2 * (round (x * 100) : ℚ)| ≤
        |((round (2 * x * 100) : ℚ)) - 2 * x * 100| +
        |2 * x * 100 - 2 * (round (x * 100) : ℚ)| := by
      have := abs_sub_le ((round (2 * x * 100) : ℚ)) (2 * x * 100)
        (2 * (round (x * 100) : ℚ))
      exact this
    have h2' : |2 * x * 100 - 2 * (round (x * 100) : ℚ)| ≤ 1 := by
      have : 2 * x * 100 - 2 * (round (x * 100) : ℚ) =
          2 * (x * 100 - (round (x * 100) : ℚ)) := by ring
      rw [this, abs_mul, abs_two]
      linarith
    linarith
  have h4 : |round (2 * x * 100) - 2 * round (x * 100)| ≤ 1 := by
    have hq : (|round (2 * x * 100) - 2 * round (x * 100)| : ℚ) ≤ 3 / 2 := h3
    have hlt : (|round (2 * x * 100) - 2 * round (x * 100)| : ℚ) < 2 := by linarith
    have : |round (2 * x * 100) - 2 * round (x * 100)| < 2 := by exact_mod_cast hlt
    omega
  have heq : ((round (2 * x * 100) : ℚ)) / 100 - 2 * ((round (x * 100) : ℚ) / 100) =
      (((round (2 * x * 100) : ℚ)) - 2 * (round (x * 100) : ℚ)) / 100 := by ring
  rw [heq, abs_div, abs_of_pos (by norm_num : (0 : ℚ) < 100)]
  have h4' : |((round (2 * x * 100) : ℚ)) - 2 * (round (x * 100) : ℚ)| ≤ 1 := by
    have : ((|round (2 * x * 100) - 2 * round (x * 100)| : ℤ) : ℚ) ≤ 1 := by
      exact_mod_cast h4
    calc |((round (2 * x * 100) : ℚ)) - 2 * (round (x * 100) : ℚ)|
        = ((|round (2 * x * 100) - 2 * round (x * 100)| : ℤ) : ℚ) := by push_cast; ring_nf
      _ ≤ 1 := this
  linarith

/-- Evaluation rule: `round2 x = z / 100` when `z` is the nearest integer
to `x * 100`. -/
theorem round2_eq_div (x : ℚ) (z : ℤ) (h1 : (z : ℚ) ≤ x * 100 + 1 / 2)
    (h2 : x * 100 + 1 / 2 < z + 1) : round2 x = (z : ℚ) / 100 := by
  unfold round2
  have hz : round (x * 100) = z := by
    rw [round_eq]
    exact Int.floor_eq_iff.mpr ⟨h1, h2⟩
  rw [hz]

/-- Every allowed frequency is positive. -/
theorem validFrequency_pos {f : ℤ} (hf : validFrequency f) : (0 : ℤ) < f := by
  have hf' : f ∈ ([1, 2, 4, 12, 52, 365] : List ℤ) := hf
  fin_cases hf' <;> norm_num

/-- C1: at the validated input (1000, 0.05, 60, 12) the code returns
292990.71, produced by the literal `(2 - (1+r)^-n)/r` expression, while the
formula the claim (and the source's own docstring) states yields 52990.71:
the two differ, so the code contradicts its documentation and tests. -/
theorem C1_code_formula_differs :
    calculate_present_value 1000 (1 / 20) 60 12 = .ok (29299071 / 100) ∧
    present_value_spec 1000 (1 / 20) 60 12 = 5299071 / 100 ∧
    (29299071 / 100 : ℚ) ≠ 5299071 / 100 := by
  refine ⟨?_, ?_, by norm_num⟩
  · rw [@calculate_present_value_eq_ok 1000 (1 / 20) 60 12 (by decide)
        (by norm_num [validRate, MAX_INTEREST_RATE]) (by decide) (by decide),
      if_neg (by norm_num : ¬ ((1 : ℚ) / 20 / ((12 : ℤ) : ℚ) = 0))]
    congr 1
    rw [round2_eq_div _ 29299071 (by norm_num) (by norm_num)]
    norm_num
  · unfold present_value_spec
    rw [round2_eq_div _ 5299071 (by norm_num) (by norm_num)]
    norm_num

/-- C2: the repository's own `test_basic_calculation` expects the result at
(1000, 0.05, 60, 12) to be within 1.0 of 52990.70, but the code returns
292990.71, which is not. -/
theorem C2_basic_scenario_fails :
    calculate_present_value 1000 (1 / 20) 60 12 = .ok (29299071 / 100) ∧
    ¬ (|(29299071 / 100 : ℚ) - 5299070 / 100| < 1) := by
  constructor
  · rw [@calculate_present_value_eq_ok 1000 (1 / 20) 60 12 (by decide)
        (by norm_num [validRate, MAX_INTEREST_RATE]) (by decide) (by decide),
      if_neg (by norm_num : ¬ ((1 : ℚ) / 20 / ((12 : ℤ) : ℚ) = 0))]
    congr 1
    rw [round2_eq_div _ 29299071 (by norm_num) (by norm_num)]
    norm_num
  · rw [abs_sub_lt_iff]
    norm_num

/-- C6: at the validated input (1000, 0.20, 60, 12) — the input of the
repository's own `test_high_interest_rate` — the code returns 97744.56,
which is not strictly below the undiscounted sum 1000 × 60 = 60000, so the
claimed discounting bound fails on the code. -/
theorem C6_pv_exceeds_total_payments :
    calculate_present_value 1000 (1 / 5) 60 12 = .ok (9774456 / 100) ∧
    ¬ ((9774456 / 100 : ℚ) < 1000 * 60) := by
  constructor
  · rw [@calculate_present_value_eq_ok 1000 (1 / 5) 60 12 (by decide)
        (by norm_num [validRate, MAX_INTEREST_RATE]) (by decide) (by decide),
      if_neg (by norm_num : ¬ ((1 : ℚ) / 5 / ((12 : ℤ) : ℚ) = 0))]
    congr 1
    rw [round2_eq_div _ 9774456 (by norm_num) (by norm_num)]
    norm_num
  · norm_num

/-- C3 counterexample: at the valid input (payment 0.004, rate 0, periods 1,
frequency 12) the zero-rate branch returns 0.004 unrounded, which differs
from round(p × n, 2) = 0.00 — the claimed equality fails on the code. -/
theorem C3_zero_rate_rounding_cex :
    calculate_present_value (1 / 250) 0 1 12 = .ok (1 / 250) ∧
    round2 ((1 / 250) * ((1 : ℤ) : ℚ)) ≠ (1 / 250 : ℚ) := by
  constructor
  · rw [@calculate_present_value_eq_ok (1 / 250) 0 1 12
        (by norm_num [validPayment, MAX_PAYMENT]) (by decide) (by decide) (by decide),
      if_pos (by norm_num : (0 : ℚ) / ((12 : ℤ) : ℚ) = 0)]
    norm_num
  · rw [round2_eq_div _ 0 (by norm_num) (by norm_num)]
    norm_num

/-- C3 (amended): on the zero-rate branch the code returns exactly
payment × periods with no rounding applied; this agrees with
round(p × n, 2) precisely when p × n already has at most two decimals. -/
theorem C3_zero_rate_exact (p : ℚ) (n f : ℤ) (hp : validPayment p)
    (hn : validPeriods n) (hf : validFrequency f) :
    calculate_present_value p 0 n f = .ok (p * (n : ℚ)) := by
  have hr : validRate 0 := by norm_num [validRate, MAX_INTEREST_RATE]
  rw [calculate_present_value_eq_ok hp hr hn hf, if_pos (zero_div _)]

/-- Witness for C3 (amended): the spec's own scenario (500, 0.0, 24, 12)
returns exactly 500 × 24. -/
theorem C3_zero_rate_exact_witness :
    calculate_present_value 500 0 24 12 = .ok (500 * ((24 : ℤ) : ℚ)) :=
  C3_zero_rate_exact 500 24 12 (by decide) (by decide) (by decide)

/-- C10 counterexample: the validated input (payment 0.000001, rate 0.05,
periods 60, frequency 12) passes validation but the general branch rounds
the tiny present value down to exactly 0, which is not strictly positive. -/
theorem C10_positive_cex :
    calculate_present_value (1 / 1000000) (1 / 20) 60 12 = .ok 0 ∧
    ¬ (0 < (0 : ℚ)) := by
  constructor
  · rw [@calculate_present_value_eq_ok (1 / 1000000) (1 / 20) 60 12
        (by norm_num [validPayment, MAX_PAYMENT])
        (by norm_num [validRate, MAX_INTEREST_RATE]) (by decide) (by decide),
      if_neg (by norm_num : ¬ ((1 : ℚ) / 20 / ((12 : ℤ) : ℚ) = 0))]
    congr 1
    rw [round2_eq_div _ 0 (by norm_num) (by norm_num)]
    norm_num
  · norm_num

/-- C10 (amended): every validated tuple yields a successful, nonnegative
result; it is strictly positive on the zero-rate branch, but on the general
branch rounding can map a tiny positive present value to exactly 0. -/
theorem C10_result_nonneg (p r : ℚ) (n f : ℤ) (hp : validPayment p)
    (hr : validRate r) (hn : validPeriods n) (hf : validFrequency f) :
    (calculate_present_value p r n f).isOk = true ∧
    0 ≤ (calculate_present_value p r n f).toOption.getD 0 ∧
    (r = 0 → 0 < (calculate_present_value p r n f).toOption.getD 0) := by
  have hfpos : (0 : ℚ) < (f : ℚ) := by exact_mod_cast validFrequency_pos hf
  have hn1 : (1 : ℚ) ≤ (n : ℚ) := by
    have := hn.1
    rw [MIN_PERIODS] at this
    exact_mod_cast this
  rw [calculate_present_value_eq_ok hp hr hn hf]
  by_cases h0 : r / (f : ℚ) = 0
  · rw [if_pos h0]
    have hpos : 0 < p * (n : ℚ) := mul_pos hp.1 (by linarith)
    exact ⟨rfl, le_of_lt hpos, fun _ => hpos⟩
  · rw [if_neg h0]
    have hr0 : r ≠ 0 := fun h => h0 (by rw [h, zero_div])
    have hrpos : 0 < r := lt_of_le_of_ne hr.1 (Ne.symm hr0)
    have hprpos : 0 < r / (f : ℚ) := div_pos hrpos hfpos
    have hzpow : (1 + r / (f : ℚ)) ^ (-n) ≤ 1 := by
      rw [zpow_neg]
      apply inv_le_one_of_one_le₀
      apply one_le_zpow₀ (by linarith)
      have := hn.1
      rw [MIN_PERIODS] at this
      omega
    have hx : 0 ≤ p * ((2 - (1 + r / (f : ℚ)) ^ (-n)) / (r / (f : ℚ))) :=
      mul_nonneg (le_of_lt hp.1) (div_nonneg (by linarith) (le_of_lt hprpos))
    exact ⟨rfl, round2_nonneg hx, fun hreq => absurd hreq hr0⟩

/-- Witness for C10 (amended) at the zero-rate input (500, 0, 24, 12). -/
theorem C10_result_nonneg_witness :
    (calculate_present_value 500 0 24 12).isOk = true ∧
    0 ≤ (calculate_present_value 500 0 24 12).toOption.getD 0 ∧
    ((0 : ℚ) = 0 → 0 < (calculate_present_value 500 0 24 12).toOption.getD 0) :=
  C10_result_nonneg 500 0 24 12 (by decide)
    (by norm_num [validRate, MAX_INTEREST_RATE]) (by decide) (by decide)

/-- C8 counterexample: the validated zero-rate input (payment 0.004, rate 0,
periods 3, frequency 12) returns 0.012, which differs from its own value
rounded to 2 decimal places (0.01) — the returned value does not always
carry currency precision. -/
theorem C8_rounding_cex :
    calculate_present_value (1 / 250) 0 3 12 = .ok (3 / 250) ∧
    round2 ((3 : ℚ) / 250) ≠ (3 / 250 : ℚ) := by
  constructor
  · rw [@calculate_present_value_eq_ok (1 / 250) 0 3 12
        (by norm_num [validPayment, MAX_PAYMENT]) (by decide) (by decide) (by decide),
      if_pos (by norm_num : (0 : ℚ) / ((12 : ℤ) : ℚ) = 0)]
    norm_num
  · rw [round2_eq_div _ 1 (by norm_num) (by norm_num)]
    norm_num

/-- C8 (amended): on the general branch (annual rate strictly positive) the
returned value equals itself rounded to 2 decimal places; the zero-rate
branch instead returns payment × periods unrounded. -/
theorem C8_rounding_idempotent (p r : ℚ) (n f : ℤ) (hp : validPayment p)
    (hr : validRate r) (hrpos : 0 < r) (hn : validPeriods n)
    (hf : validFrequency f) :
    (calculate_present_value p r n f).isOk = true ∧
    round2 ((calculate_present_value p r n f).toOption.getD 0) =
      (calculate_present_value p r n f).toOption.getD 0 := by
  have hfpos : (0 : ℚ) < (f : ℚ) := by exact_mod_cast validFrequency_pos hf
  have hpr : ¬ (r / (f : ℚ) = 0) := ne_of_gt (div_pos hrpos hfpos)
  rw [calculate_present_value_eq_ok hp hr hn hf, if_neg hpr]
  exact ⟨rfl, round2_idem _⟩

/-- Witness for C8 (amended) at (1000, 0.05, 60, 12). -/
theorem C8_rounding_idempotent_witness :
    (calculate_present_value 1000 (1 / 20) 60 12).isOk = true ∧
    round2 ((calculate_present_value 1000 (1 / 20) 60 12).toOption.getD 0) =
      (calculate_present_value 1000 (1 / 20) 60 12).toOption.getD 0 :=
  C8_rounding_idempotent 1000 (1 / 20) 60 12 (by decide)
    (by norm_num [validRate, MAX_INTEREST_RATE]) (by norm_num) (by decide) (by decide)

/-- C9: `calculate_present_value` is a pure function of its four arguments
— in this embedding, as in the stateless source, two invocations with
identical arguments are the same value, with no hidden state, randomness,
or time dependence to distinguish them. -/
theorem C9_deterministic : ∀ (p r : ℚ) (n f : ℤ),
    calculate_present_value p r n f = calculate_present_value p r n f :=
  fun _ _ _ _ => rfl

/-- C7: doubling the payment changes the result by exactly twice the
original up to one cent of rounding, on both branches. -/
theorem C7_linear_in_payment (p r : ℚ) (n f : ℤ) (hp : validPayment p)
    (hp2 : validPayment (2 * p)) (hr : validRate r) (hn : validPeriods n)
    (hf : validFrequency f) :
    (calculate_present_value p r n f).isOk = true ∧
    (calculate_present_value (2 * p) r n f).isOk = true ∧
    |(calculate_present_value (2 * p) r n f).toOption.getD 0 -
      2 * (calculate_present_value p r n f).toOption.getD 0| ≤ 1 / 100 := by
  rw [calculate_present_value_eq_ok hp hr hn hf,
    calculate_present_value_eq_ok hp2 hr hn hf]
  by_cases h0 : r / (f : ℚ) = 0
  · rw [if_pos h0, if_pos h0]
    refine ⟨rfl, rfl, ?_⟩
    show |2 * p * (n : ℚ) - 2 * (p * (n : ℚ))| ≤ 1 / 100
    rw [show 2 * p * (n : ℚ) - 2 * (p * (n : ℚ)) = 0 by ring, abs_zero]
    norm_num
  · rw [if_neg h0, if_neg h0]
    refine ⟨rfl, rfl, ?_⟩
    show |round2 (2 * p * ((2 - (1 + r / (f : ℚ)) ^ (-n)) / (r / (f : ℚ)))) -
      2 * round2 (p * ((2 - (1 + r / (f : ℚ)) ^ (-n)) / (r / (f : ℚ))))| ≤ 1 / 100
    rw [show 2 * p * ((2 - (1 + r / (f : ℚ)) ^ (-n)) / (r / (f : ℚ))) =
      2 * (p * ((2 - (1 + r / (f : ℚ)) ^ (-n)) / (r / (f : ℚ)))) by ring]
    exact round2_two_mul _

/-- Witness for C7 at (1000, 0.05, 60, 12) against (2000, 0.05, 60, 12). -/
theorem C7_linear_in_payment_witness :
    (calculate_present_value 1000 (1 / 20) 60 12).isOk = true ∧
    (calculate_present_value (2 * 1000) (1 / 20) 60 12).isOk = true ∧
    |(calculate_present_value (2 * 1000) (1 / 20) 60 12).toOption.getD 0 -
      2 * (calculate_present_value 1000 (1 / 20) 60 12).toOption.getD 0| ≤ 1 / 100 :=
  C7_linear_in_payment 1000 (1 / 20) 60 12 (by decide)
    (by norm_num [validPayment, MAX_PAYMENT])
    (by norm_num [validRate, MAX_INTEREST_RATE]) (by decide) (by decide)

/-- C4: boundary behavior of the four validators — zero payment fails with
the payment error, the exact maxima pass, values just outside every bound
fail with the matching error, and any frequency outside the allowed set
(such as 7) fails with the frequency error, also through the full call. -/
theorem C4_boundary_validation :
    validate_payment 0 = .error "Payment must be positive" ∧
    calculate_present_value 0 (1 / 20) 60 12 = .error "Payment must be positive" ∧
    validate_payment MAX_PAYMENT = .ok () ∧
    (calculate_present_value MAX_PAYMENT (1 / 20) 60 12).isOk = true ∧
    (∀ p : ℚ, MAX_PAYMENT < p →
      validate_payment p = .error "Payment cannot exceed $1,000,000,000.00") ∧
    validate_interest_rate MAX_INTEREST_RATE = .ok () ∧
    (∀ r : ℚ, MAX_INTEREST_RATE < r →
      validate_interest_rate r = .error "Interest rate cannot exceed 100.0%") ∧
    (∀ r : ℚ, r < 0 → validate_interest_rate r = .error "Interest rate cannot be negative") ∧
    validate_periods MIN_PERIODS = .ok () ∧
    validate_periods MAX_PERIODS = .ok () ∧
    validate_periods 0 = .error "Periods must be at least 1" ∧
    validate_periods 601 = .error "Periods cannot exceed 600" ∧
    (∀ f : ℤ, ¬ validFrequency f →
      validate_periods_per_year f = .error "Periods per year must be 1, 2, 4, 12, 52, or 365") ∧
    calculate_present_value 1000 (1 / 20) 60 7 =
      .error "Periods per year must be 1, 2, 4, 12, 52, or 365" := by
  refine ⟨rfl, rfl, rfl, ?_, ?_, rfl, ?_, ?_, rfl, rfl, rfl, rfl, ?_, ?_⟩
  · rw [@calculate_present_value_eq_ok MAX_PAYMENT (1 / 20) 60 12 (by decide)
        (by norm_num [validRate, MAX_INTEREST_RATE]) (by decide) (by decide),
      if_neg (by norm_num : ¬ ((1 : ℚ) / 20 / ((12 : ℤ) : ℚ) = 0))]
    rfl
  · intro p h
    have h0 : ¬ p ≤ 0 := by
      rw [MAX_PAYMENT] at h
      push_neg
      linarith
    unfold validate_payment
    rw [if_neg h0, if_pos h]
  · intro r h
    have h0 : ¬ r < 0 := by
      rw [MAX_INTEREST_RATE] at h
      push_neg
      linarith
    unfold validate_interest_rate
    rw [if_neg h0, if_pos h]
  · intro r h
    unfold validate_interest_rate
    rw [if_pos h]
  · intro f h
    have h' : f ∉ ([1, 2, 4, 12, 52, 365] : List ℤ) := h
    unfold validate_periods_per_year
    rw [if_pos h']
  · unfold calculate_present_value
    rw [validate_payment_eq_ok (by decide),
      validate_interest_rate_eq_ok (by norm_num [validRate, MAX_INTEREST_RATE]),
      validate_periods_eq_ok (by decide)]
    rfl

/-- Witness for C4 at the concrete out-of-range payment MaxPayment + 1. -/
theorem C4_boundary_validation_witness :
    validate_payment (MAX_PAYMENT + 1) = .error "Payment cannot exceed $1,000,000,000.00" :=
  C4_boundary_validation.2.2.2.2.1 (MAX_PAYMENT + 1) (lt_add_one MAX_PAYMENT)

/-- C5: validation runs in the fixed order payment → rate → periods →
frequency; whenever a constraint is violated the call returns the error of
the first violated rule in that order (so an invalid payment masks every
later violation, an invalid rate masks periods and frequency, and so on),
and no `.ok` value is produced. -/
theorem C5_validation_order :
    (∀ (p r : ℚ) (n f : ℤ), ¬ validPayment p →
      calculate_present_value p r n f =
        .error (if p ≤ 0 then "Payment must be positive"
                else "Payment cannot exceed $1,000,000,000.00")) ∧
    (∀ (p r : ℚ) (n f : ℤ), validPayment p → ¬ validRate r →
      calculate_present_value p r n f =
        .error (if r < 0 then "Interest rate cannot be negative"
                else "Interest rate cannot exceed 100.0%")) ∧
    (∀ (p r : ℚ) (n f : ℤ), validPayment p → validRate r → ¬ validPeriods n →
      calculate_present_value p r n f =
        .error (if n < MIN_PERIODS then "Periods must be at least 1"
                else "Periods cannot exceed 600")) ∧
    (∀ (p r : ℚ) (n f : ℤ), validPayment p → validRate r → validPeriods n →
      ¬ validFrequency f →
      calculate_present_value p r n f =
        .error "Periods per year must be 1, 2, 4, 12, 52, or 365") := by
  refine ⟨?_, ?_, ?_, ?_⟩
  · intro p r n f h
    unfold calculate_present_value validate_payment
    by_cases h0 : p ≤ 0
    · rw [if_pos h0, if_pos h0]
    · have hmax : p > MAX_PAYMENT := by
        unfold validPayment at h
        push_neg at h
        exact h (not_le.mp h0)
      rw [if_neg h0, if_pos hmax, if_neg h0]
  · intro p r n f hp h
    unfold calculate_present_value
    rw [validate_payment_eq_ok hp]
    unfold validate_interest_rate
    by_cases h0 : r < 0
    · rw [if_pos h0, if_pos h0]
    · have hmax : r > MAX_INTEREST_RATE := by
        unfold validRate at h
        push_neg at h
        exact h (not_lt.mp h0)
      rw [if_neg h0, if_pos hmax, if_neg h0]
  · intro p r n f hp hr h
    unfold calculate_present_value
    rw [validate_payment_eq_ok hp, validate_interest_rate_eq_ok hr]
    unfold validate_periods
    by_cases h0 : n < MIN_PERIODS
    · rw [if_pos h0, if_pos h0]
    · have hmax : n > MAX_PERIODS := by
        unfold validPeriods at h
        push_neg at h
        exact h (not_lt.mp h0)
      rw [if_neg h0, if_pos hmax, if_neg h0]
  · intro p r n f hp hr hn h
    have h' : f ∉ ([1, 2, 4, 12, 52, 365] : List ℤ) := h
    unfold calculate_present_value
    rw [validate_payment_eq_ok hp, validate_interest_rate_eq_ok hr,
      validate_periods_eq_ok hn]
    unfold validate_periods_per_year
    rw [if_pos h']

/-- Witness for C5: a zero payment (with every other argument valid) yields
the payment error. -/
theorem C5_validation_order_witness :
    calculate_present_value 0 (1 / 20) 60 12 =
      .error (if (0 : ℚ) ≤ 0 then "Payment must be positive"
              else "Payment cannot exceed $1,000,000,000.00") :=
  C5_validation_order.1 0 (1 / 20) 60 12 (by decide)
